import Mathlib

/-!
Verification of the resilient TVL fetcher in `src/main.py` (notepi/crypto).

The fetcher (`class TVLFetcher`) retrieves one numeric metric (total value
locked) from two external sources with retry, plausibility validation and
staged fallback to a last-known-good value.  This file gives a shallow
embedding of the fetcher and of the two metric-calculation consumers the
claims mention, and proves the claimed properties.

Modelling conventions:
* Python floats are modelled as exact rationals (`ℚ`).
* A raw fetch attempt that raises during the HTTP call (`requests.get`,
  `raise_for_status`, `resp.json()`) is `none`; a 200 response body is a
  `Json` value.  Python's `dict.get` and `in` raise
  `AttributeError`/`TypeError` on receivers of the wrong shape, and those
  calls sit outside the retry's try block, so the fetch functions return
  `Except Unit (Option ℚ)` with `.error ()` for an uncaught exception;
  `get_tvl_run` propagates it, because line 118's `tvl = fetch_func()` is
  outside any try block in `get_tvl`.
* At the level of already-fetched candidates, the source behaviour is an
  oracle `String → Option ℚ` giving the value each source's fetch function
  returned this cycle; `get_tvl` over the oracle describes exactly the
  executions in which no fetch raised (`get_tvl_run_agrees_when_no_raise`).
* `time.sleep` is modelled by recording the computed wait times in a list.
* Python `round(x, 2)` is modelled with Mathlib's `round` (half-up); it
  differs from Python's half-even rounding only at exact half-cent ties,
  which arise in none of the statements below.
* The mutation of the singleton instance is modelled by explicit state
  passing: every operation returns the successor state.
-/

set_option autoImplicit false

/-- Python `round(x, 2)`: round to two decimal places. -/
def round2 (x : ℚ) : ℚ := (round (x * 100) : ℤ) / 100

/-- The fields initialised by `TVLFetcher.__init__` (src/main.py lines 32-42).
`source_success_count` is the dict modelled as a total function with default
count 0, which is exactly how `get_tvl` treats missing keys. -/
structure TVLFetcher where
  timeout : ℚ
  max_retries : ℕ
  base_backoff : ℚ
  last_successful_tvl : Option ℚ
  consecutive_failures : ℕ
  max_consecutive_failures : ℕ
  manual_tvl : Option ℚ
  source_success_count : String → ℕ

/-- `TVLFetcher.__init__`: timeout 10, 3 retries, base backoff 1, no history,
no failures, ceiling 5, no manual override, empty success counts. -/
def TVLFetcher.init : TVLFetcher :=
  ⟨10, 3, 1, none, 0, 5, none, fun _ => 0⟩

/-- `TVLFetcher._retry_with_backoff`, lines 44-58, unrolled on the remaining
attempt count.  `func i` is the outcome of the `i`-th call of `func` (`none`
models a raised exception).  Returns the final result (`none` models the
`return None` after exhaustion), the number of attempts actually made, and
the list of computed `wait_time` values passed to `time.sleep`
(`base_backoff * 2 ** attempt + attempt * 0.1`, line 53). -/
def retryAux {α : Type} (base : ℚ) (func : ℕ → Option α) :
    ℕ → ℕ → Option α × ℕ × List ℚ
  | 0, _ => (none, 0, [])
  | n + 1, i =>
    match func i with
    | some v => (some v, 1, [])
    | none =>
      let w := base * 2 ^ i + (i : ℚ) * (1 / 10)
      let r := retryAux base func n (i + 1)
      (r.1, r.2.1 + 1, w :: r.2.2)

/-- `self._retry_with_backoff(func)`: loop `for attempt in range(self.max_retries)`. -/
def TVLFetcher.retry_with_backoff {α : Type} (s : TVLFetcher) (func : ℕ → Option α) :
    Option α × ℕ × List ℚ :=
  retryAux s.base_backoff func s.max_retries 0

/-- The JSON values `resp.json()` can produce (`null` is Python `None`). -/
inductive Json where
  | null : Json
  | bool : Bool → Json
  | num : ℚ → Json
  | str : String → Json
  | arr : List Json → Json
  | obj : List (String × Json) → Json

/-- Python truthiness of a decoded JSON value (`if data:`):
`None`, `False`, `0`, `""`, `[]` and `{}` are falsy. -/
def Json.truthy : Json → Bool
  | .null => false
  | .bool b => b
  | .num q => decide (q ≠ 0)
  | .str t => !t.isEmpty
  | .arr xs => !xs.isEmpty
  | .obj fs => !fs.isEmpty

/-- First binding of a key in a decoded JSON object. -/
def jlookup : List (String × Json) → String → Option Json
  | [], _ => none
  | (k, v) :: rest, key => if k = key then some v else jlookup rest key

/-- Python `receiver.get(key, dflt)`: defined on dicts, raises
`AttributeError` (modelled `.error ()`) on every other receiver. -/
def Json.get (j : Json) (key : String) (dflt : Json) : Except Unit Json :=
  match j with
  | .obj fs =>
    .ok (match jlookup fs key with
      | some v => v
      | none => dflt)
  | _ => .error ()

/-- Substring test, Python `key in s` for strings; only called with the
non-empty literal key `"pair"`. -/
def strContains (s pat : String) : Bool := decide ((s.splitOn pat).length ≠ 1)

/-- Python `key in receiver`: key membership for dicts, element equality for
lists (a string key only equals string elements), substring test for
strings, `TypeError` (modelled `.error ()`) for numbers, booleans and
`None`. -/
def Json.hasMember : Json → String → Except Unit Bool
  | .obj fs, key => .ok (fs.any fun p => p.1 == key)
  | .arr xs, key =>
    .ok (xs.any fun x =>
      match x with
      | .str t => t == key
      | _ => false)
  | .str t, key => .ok (strContains t key)
  | .null, _ => .error ()
  | .bool _, _ => .error ()
  | .num _, _ => .error ()

/-- Python `isinstance(tvl, (int, float))` plus the numeric value: JSON
numbers qualify, and so do JSON booleans, because Python's `bool` is a
subtype of `int` (`True >= 0` holds and `round(True, 2) == 1`). -/
def Json.asNum : Json → Option ℚ
  | .num q => some q
  | .bool b => some (if b then 1 else 0)
  | _ => none

/-- `TVLFetcher._fetch_from_defillama`, lines 60-76: `_api_call` (HTTP GET +
`raise_for_status` + `resp.json()`) is retried; then `if data:` guards
`tvl = data.get("tvl", None)`, and the candidate is returned when numeric
and `>= 0`, rounded to two decimals; every other outcome yields `None` —
except that `data.get` on a truthy non-object response raises an uncaught
`AttributeError` (`.error ()`), since only `_api_call` is inside the
retry's try block. -/
def TVLFetcher.fetch_from_defillama (s : TVLFetcher)
    (api_call : ℕ → Option Json) : Except Unit (Option ℚ) :=
  match (s.retry_with_backoff api_call).1 with
  | none => .ok none
  | some data =>
    if data.truthy then
      match data.get "tvl" Json.null with
      | .error e => .error e
      | .ok Json.null => .ok none
      | .ok tvl =>
        match tvl.asNum with
        | some n => if 0 ≤ n then .ok (some (round2 n)) else .ok none
        | none => .ok none
    else .ok none

/-- `TVLFetcher._fetch_from_dexscreener`, lines 78-95: guard
`if data and "pair" in data:` (short-circuiting, so a falsy `data` skips the
`in` test), then the chained
`data.get("pair", {}).get("liquidity", {}).get("usd", None)`.  The `in` test
raises `TypeError` on truthy numbers and booleans, and each `.get` raises
`AttributeError` when its receiver is not an object; those exceptions
escape the fetch. -/
def TVLFetcher.fetch_from_dexscreener (s : TVLFetcher)
    (api_call : ℕ → Option Json) : Except Unit (Option ℚ) :=
  match (s.retry_with_backoff api_call).1 with
  | none => .ok none
  | some data =>
    if data.truthy then
      match data.hasMember "pair" with
      | .error e => .error e
      | .ok false => .ok none
      | .ok true =>
        match data.get "pair" (Json.obj []) with
        | .error e => .error e
        | .ok pair =>
          match pair.get "liquidity" (Json.obj []) with
          | .error e => .error e
          | .ok liq =>
            match liq.get "usd" Json.null with
            | .error e => .error e
            | .ok Json.null => .ok none
            | .ok tvl =>
              match tvl.asNum with
              | some n => if 0 ≤ n then .ok (some (round2 n)) else .ok none
              | none => .ok none
    else .ok none

/-- `TVLFetcher.validate_tvl`, lines 155-169: reject negative values; with a
last successful value, reject a relative change of more than 90 percent
(`change_pct = abs((tvl - last) / last * 100)`, reject when `> 90`). -/
def TVLFetcher.validate_tvl (s : TVLFetcher) (tvl : ℚ) : Bool :=
  if tvl < 0 then false
  else
    match s.last_successful_tvl with
    | some last => if |(tvl - last) / last * 100| > 90 then false else true
    | none => true

/-- The acceptance test on line 119 of `get_tvl`:
`tvl is not None and tvl > 0 and self.validate_tvl(tvl)`. -/
def TVLFetcher.accepted (s : TVLFetcher) (r : Option ℚ) : Bool :=
  match r with
  | some tvl => decide (0 < tvl) && s.validate_tvl tvl
  | none => false

/-- The source priority list of `get_tvl`, lines 110-113: DexScreener is
deliberately placed before DeFiLlama. -/
def sourceNames : List String := ["DexScreener", "DeFiLlama"]

/-- The `for fetch_func, source_name in sources` loop of `get_tvl`
(lines 117-134), with the network abstracted as `oracle name = ` the value
returned by that source's fetch function this cycle.  Returns the first
accepted `(value, source_name)` if any, paired with the list of sources whose
fetch function was actually invoked. -/
def TVLFetcher.trySources (s : TVLFetcher) (oracle : String → Option ℚ) :
    List String → Option (ℚ × String) × List String
  | [] => (none, [])
  | name :: rest =>
    match oracle name with
    | some tvl =>
      if s.accepted (some tvl) then (some (tvl, name), [name])
      else
        let p := TVLFetcher.trySources s oracle rest
        (p.1, name :: p.2)
    | none =>
      let p := TVLFetcher.trySources s oracle rest
      (p.1, name :: p.2)

/-- The reading produced by one `get_tvl` call: the returned pair
`(value, source)`, the successor state of the instance, and the trace of
sources whose fetch function was invoked. -/
structure GetTvlResult where
  value : ℚ
  source : String
  state : TVLFetcher
  invoked : List String

/-- `TVLFetcher.get_tvl`, lines 97-153.  Manual override short-circuits;
otherwise the sources are tried in priority order; on the first accepted
value the failure counter resets, that source's success count increments and
the last successful value is stored; if the loop falls through, every source
failed (`all_failed` can only still be `True` there), the failure counter
increments and the last successful value (tag `"LastSuccessfulValue"`) or
`0.0` (tag `"Default"`) is returned. -/
def TVLFetcher.get_tvl (s : TVLFetcher) (oracle : String → Option ℚ) : GetTvlResult :=
  match s.manual_tvl with
  | some v => ⟨v, "ManualOverride", s, []⟩
  | none =>
    let p := s.trySources oracle sourceNames
    match p.1 with
    | some (tvl, name) =>
      ⟨tvl, name,
        { s with
          consecutive_failures := 0,
          source_success_count := fun n =>
            if n = name then s.source_success_count n + 1 else s.source_success_count n,
          last_successful_tvl := some tvl },
        p.2⟩
    | none =>
      let s1 := { s with consecutive_failures := s.consecutive_failures + 1 }
      match s.last_successful_tvl with
      | some last => ⟨last, "LastSuccessfulValue", s1, p.2⟩
      | none => ⟨0, "Default", s1, p.2⟩

/-- The `get_tvl` source loop again, over the exception-aware fetch results:
`tvl = fetch_func()` on line 118 is not inside a try block, so a fetch that
raises aborts the whole `get_tvl` call before any later source is tried. -/
def TVLFetcher.trySourcesE (s : TVLFetcher) :
    List (Except Unit (Option ℚ) × String) →
      Except Unit (Option (ℚ × String) × List String)
  | [] => .ok (none, [])
  | (r, name) :: rest =>
    match r with
    | .error e => .error e
    | .ok (some tvl) =>
      if s.accepted (some tvl) then .ok (some (tvl, name), [name])
      else
        match TVLFetcher.trySourcesE s rest with
        | .error e => .error e
        | .ok p => .ok (p.1, name :: p.2)
    | .ok none =>
      match TVLFetcher.trySourcesE s rest with
      | .error e => .error e
      | .ok p => .ok (p.1, name :: p.2)

/-- `TVLFetcher.get_tvl` composed with the real fetch functions, with
uncaught exceptions propagated: the override branch precedes all fetching,
then the source list `[(self._fetch_from_dexscreener, "DexScreener"),
(self._fetch_from_defillama, "DeFiLlama")]` is walked by the loop; the
success handling and the fallback chain are those of `get_tvl`. -/
def TVLFetcher.get_tvl_run (s : TVLFetcher)
    (dex_api llama_api : ℕ → Option Json) : Except Unit GetTvlResult :=
  match s.manual_tvl with
  | some v => .ok ⟨v, "ManualOverride", s, []⟩
  | none =>
    match s.trySourcesE
        [(s.fetch_from_dexscreener dex_api, "DexScreener"),
         (s.fetch_from_defillama llama_api, "DeFiLlama")] with
    | .error e => .error e
    | .ok p =>
      match p.1 with
      | some (tvl, name) =>
        .ok ⟨tvl, name,
          { s with
            consecutive_failures := 0,
            source_success_count := fun n =>
              if n = name then s.source_success_count n + 1
              else s.source_success_count n,
            last_successful_tvl := some tvl },
          p.2⟩
      | none =>
        let s1 := { s with consecutive_failures := s.consecutive_failures + 1 }
        match s.last_successful_tvl with
        | some last => .ok ⟨last, "LastSuccessfulValue", s1, p.2⟩
        | none => .ok ⟨0, "Default", s1, p.2⟩

/-- `fetch_contract_tvl`, lines 175-190: lazily create the singleton, call
`get_tvl`, and return only the numeric value, dropping the source tag.
The successor state models the mutated singleton. -/
def fetch_contract_tvl (inst : Option TVLFetcher) (oracle : String → Option ℚ) :
    ℚ × TVLFetcher :=
  let s := inst.getD TVLFetcher.init
  let r := s.get_tvl oracle
  (r.value, r.state)

/-- States of the fetcher reachable through its operations.  The setter for
the manual override is modelled from the spec (operator surface, section 6:
"a setter for manual override (accepts a non-negative value or clear)");
`src/main.py` contains no code that assigns `manual_tvl` after `__init__`. -/
inductive Reachable : TVLFetcher → Prop where
  | init : Reachable TVLFetcher.init
  | step_get : ∀ (s : TVLFetcher) (oracle : String → Option ℚ),
      Reachable s → Reachable (s.get_tvl oracle).state
  | set_override : ∀ (s : TVLFetcher) (v : ℚ),
      Reachable s → 0 ≤ v → Reachable { s with manual_tvl := some v }
  | clear_override : ∀ (s : TVLFetcher),
      Reachable s → Reachable { s with manual_tvl := none }

/-- The state invariant maintained by every operation: a set manual override
is non-negative and a stored last successful value is strictly positive. -/
def StateOK (s : TVLFetcher) : Prop :=
  (∀ v, s.manual_tvl = some v → 0 ≤ v) ∧
  (∀ last, s.last_successful_tvl = some last → 0 < last)

/-- `FUND_OUTFLOW_THRESHOLD`, line 21. -/
def FUND_OUTFLOW_THRESHOLD : ℚ := 3 / 10

/-- `LIQUIDITY_DROP_THRESHOLD`, line 22. -/
def LIQUIDITY_DROP_THRESHOLD : ℚ := 3 / 10

/-- `TARGET_CONTRACT`, line 14. -/
def TARGET_CONTRACT : String := "0x88e6a0c2ddd26feeb64f039a2c41296fcb3f5640"

/-- One internal transaction from the Etherscan response, with the fields
`calculate_fund_outflow` reads. -/
structure Tx where
  timeStamp : ℤ
  value : ℤ
  fromAddr : String
  toAddr : String

/-- Body of the `for tx in transactions` loop of `calculate_fund_outflow`
(lines 249-272): skip transactions older than one hour, convert the value to
USD, and add it to the inflow or outflow accumulator by address match. -/
def txFlow (one_hour_ago : ℤ) (token_price : ℚ) (acc : ℚ × ℚ) (tx : Tx) : ℚ × ℚ :=
  if tx.timeStamp < one_hour_ago then acc
  else
    let value_usd := (tx.value : ℚ) / 10 ^ 18 * token_price
    if tx.fromAddr.toLower = TARGET_CONTRACT.toLower then (acc.1, acc.2 + value_usd)
    else if tx.toAddr.toLower = TARGET_CONTRACT.toLower then (acc.1 + value_usd, acc.2)
    else acc

/-- `calculate_fund_outflow`, lines 237-277, with its inputs (the fetched
TVL, the transaction list, the current time in epoch seconds and the token
price) made explicit.  Accumulator is `(inflow_usd, outflow_usd)`. -/
def calculate_fund_outflow (tvl : ℚ) (transactions : List Tx) (nowTs : ℤ)
    (token_price : ℚ) : ℚ × Bool :=
  if tvl ≤ 0 then (0, false)
  else
    let one_hour_ago := nowTs - 3600
    let flows := transactions.foldl (txFlow one_hour_ago token_price) (0, 0)
    let net_outflow := flows.2 - flows.1
    let net_outflow_rate := if tvl ≠ 0 then net_outflow / tvl * 100 else 0
    (round2 net_outflow_rate, decide (net_outflow_rate > FUND_OUTFLOW_THRESHOLD * 100))

/-- `calculate_liquidity_change`, lines 279-290, with the fetched liquidity
made explicit: the "historical" baseline is the current value times 1.2, the
change rate is computed against it, and the alert fires below -30 percent. -/
def calculate_liquidity_change (current_liquidity : ℚ) : ℚ × Bool × ℚ :=
  if current_liquidity ≤ 0 then (0, false, 0)
  else
    let historical_liquidity := current_liquidity * (6 / 5)
    let change_rate := (current_liquidity - historical_liquidity) / historical_liquidity * 100
    let is_alert := decide (change_rate < -(LIQUIDITY_DROP_THRESHOLD * 100))
    (round2 change_rate, is_alert, current_liquidity)

/-! ## Helper lemmas -/

lemma accepted_some_iff (s : TVLFetcher) (tvl : ℚ) :
    s.accepted (some tvl) = true ↔ 0 < tvl ∧ s.validate_tvl tvl = true := by
  simp [TVLFetcher.accepted]

lemma retryAux_fail_step {α : Type} (base : ℚ) (func : ℕ → Option α) (n i : ℕ)
    (h : func i = none) :
    retryAux base func (n + 1) i =
      ((retryAux base func n (i + 1)).1,
       (retryAux base func n (i + 1)).2.1 + 1,
       (base * 2 ^ i + (i : ℚ) * (1 / 10)) :: (retryAux base func n (i + 1)).2.2) := by
  simp only [retryAux, h]

/-! ## Claims -/

/-- C2: whenever the manual-override field holds `V`, `get_tvl` returns
exactly `(V, "ManualOverride")`, invokes no source fetch, and leaves the
whole state unchanged — hence the behaviour repeats on every call until the
override is cleared. -/
theorem manual_override_bypasses_sources (s : TVLFetcher)
    (oracle : String → Option ℚ) (V : ℚ) (h : s.manual_tvl = some V) :
    s.get_tvl oracle = ⟨V, "ManualOverride", s, []⟩ := by
  simp only [TVLFetcher.get_tvl, h]

theorem manual_override_bypasses_sources_witness :
    ({ TVLFetcher.init with manual_tvl := some 42 } : TVLFetcher).get_tvl
        (fun _ => none) =
      ⟨42, "ManualOverride", { TVLFetcher.init with manual_tvl := some 42 }, []⟩ :=
  manual_override_bypasses_sources _ _ 42 rfl

/-- C6: for a permanently failing fetch function, the retry wrapper with
`max_retries = 3` and `base_backoff = 1` makes exactly 3 attempts, reports
failure (`none`), and the waits before attempts 2 and 3 are
`1 * 2 ^ 0 + 0.1 * 0 = 1` and `1 * 2 ^ 1 + 0.1 * 1 = 2.1` (the third wait,
after the final failure, is `4.2`). -/
theorem retry_exact_attempts_and_backoff (s : TVLFetcher) (func : ℕ → Option ℚ)
    (hm : s.max_retries = 3) (hb : s.base_backoff = 1) (hf : ∀ i, func i = none) :
    s.retry_with_backoff func = (none, 3, [1, 2 + 1 / 10, 4 + 2 / 10]) := by
  rw [TVLFetcher.retry_with_backoff, hm, hb]
  rw [show (3 : ℕ) = 2 + 1 from rfl, retryAux_fail_step _ _ _ _ (hf 0),
    show (2 : ℕ) = 1 + 1 from rfl, retryAux_fail_step _ _ _ _ (hf 1),
    show (1 : ℕ) = 0 + 1 from rfl, retryAux_fail_step _ _ _ _ (hf 2)]
  simp [retryAux]
  norm_num

theorem retry_exact_attempts_and_backoff_witness :
    TVLFetcher.init.retry_with_backoff (fun _ => (none : Option ℚ)) =
      (none, 3, [1, 2 + 1 / 10, 4 + 2 / 10]) :=
  retry_exact_attempts_and_backoff TVLFetcher.init _ rfl rfl (fun _ => rfl)

/-- C8: whenever the fetched TVL is zero or negative, `calculate_fund_outflow`
returns a 0 percent net-outflow rate with the alert suppressed. -/
theorem fund_outflow_zero_tvl_no_alert (tvl : ℚ) (transactions : List Tx)
    (nowTs : ℤ) (token_price : ℚ) (h : tvl ≤ 0) :
    calculate_fund_outflow tvl transactions nowTs token_price = (0, false) := by
  simp [calculate_fund_outflow, h]

theorem fund_outflow_zero_tvl_no_alert_witness :
    calculate_fund_outflow 0 [] 0 1 = (0, false) :=
  fund_outflow_zero_tvl_no_alert 0 [] 0 1 (by norm_num)

/-- C10: for every positive current liquidity, the synthetic baseline is the
current value times 1.2, so the change rate is the constant
`round2 (-100 / 6) = -16.67` and the `-30` percent alert can never fire. -/
theorem liquidity_change_constant_no_alert (c : ℚ) (h : 0 < c) :
    calculate_liquidity_change c = (-(1667 / 100), false, c) := by
  have hc : c ≠ 0 := ne_of_gt h
  have hnot : ¬c ≤ 0 := not_le.mpr h
  have hchange : (c - c * (6 / 5)) / (c * (6 / 5)) * 100 = -50 / 3 := by
    field_simp
    ring
  have hround : round ((-50 / 3 : ℚ) * 100) = -1667 := by
    rw [round_eq]
    apply Int.floor_eq_iff.mpr
    constructor <;> norm_num
  simp only [calculate_liquidity_change, if_neg hnot, LIQUIDITY_DROP_THRESHOLD]
  rw [hchange]
  rw [round2, hround]
  norm_num

theorem liquidity_change_constant_no_alert_witness :
    calculate_liquidity_change 7 = (-(1667 / 100), false, 7) :=
  liquidity_change_constant_no_alert 7 (by norm_num)

lemma trySources_eq_some (s : TVLFetcher) (oracle : String → Option ℚ) :
    ∀ (l : List String) (tvl : ℚ) (name : String),
      (s.trySources oracle l).1 = some (tvl, name) →
      0 < tvl ∧ s.validate_tvl tvl = true ∧ name ∈ l ∧ oracle name = some tvl := by
  intro l
  induction l with
  | nil => intro tvl name h; simp [TVLFetcher.trySources] at h
  | cons hd tl ih =>
    intro tvl name h
    cases ho : oracle hd with
    | none =>
      simp only [TVLFetcher.trySources, ho] at h
      obtain ⟨h1, h2, h3, h4⟩ := ih tvl name h
      exact ⟨h1, h2, List.mem_cons_of_mem _ h3, h4⟩
    | some t =>
      by_cases hacc : s.accepted (some t) = true
      · simp only [TVLFetcher.trySources, ho, if_pos hacc] at h
        obtain ⟨rfl, rfl⟩ : t = tvl ∧ hd = name := by
          simpa using h
        obtain ⟨hpos, hval⟩ := (accepted_some_iff s t).mp hacc
        exact ⟨hpos, hval, List.mem_cons_self _ _, ho⟩
      · simp only [TVLFetcher.trySources, ho, if_neg hacc] at h
        obtain ⟨h1, h2, h3, h4⟩ := ih tvl name h
        exact ⟨h1, h2, List.mem_cons_of_mem _ h3, h4⟩

lemma trySources_all_rejected (s : TVLFetcher) (oracle : String → Option ℚ)
    (h1 : s.accepted (oracle "DexScreener") = false)
    (h2 : s.accepted (oracle "DeFiLlama") = false) :
    s.trySources oracle sourceNames = (none, ["DexScreener", "DeFiLlama"]) := by
  cases ho1 : oracle "DexScreener" with
  | none =>
    cases ho2 : oracle "DeFiLlama" with
    | none => simp [TVLFetcher.trySources, sourceNames, ho1, ho2]
    | some t2 =>
      rw [ho2] at h2
      simp [TVLFetcher.trySources, sourceNames, ho1, ho2, h2]
  | some t1 =>
    rw [ho1] at h1
    cases ho2 : oracle "DeFiLlama" with
    | none => simp [TVLFetcher.trySources, sourceNames, ho1, ho2, h1]
    | some t2 =>
      rw [ho2] at h2
      simp [TVLFetcher.trySources, sourceNames, ho1, ho2, h1, h2]

/-- C3: `validate_tvl` rejects every negative candidate; with no last
successful value it accepts every non-negative candidate; with a (positive)
last successful value `last` it rejects exactly the candidates whose relative
deviation `|tvl - last| / last` exceeds 90 percent. -/
theorem validate_tvl_spec (s : TVLFetcher) (c : ℚ) :
    (c < 0 → s.validate_tvl c = false) ∧
    (s.last_successful_tvl = none → 0 ≤ c → s.validate_tvl c = true) ∧
    (∀ last, s.last_successful_tvl = some last → 0 < last →
      (s.validate_tvl c = false ↔ |c - last| / last > 9 / 10)) := by
  refine ⟨?_, ?_, ?_⟩
  · intro hc
    simp [TVLFetcher.validate_tvl, hc]
  · intro hl hc
    simp [TVLFetcher.validate_tvl, hl, not_lt.mpr hc]
  · intro last hl hpos
    by_cases hc : c < 0
    · have hfalse : s.validate_tvl c = false := by
        simp [TVLFetcher.validate_tvl, hc]
      have hdev : |c - last| / last > 9 / 10 := by
        have habs : |c - last| = last - c := by
          rw [abs_of_neg (by linarith)]
          ring
        rw [habs, gt_iff_lt, lt_div_iff₀ hpos]
        nlinarith
      simp [hfalse, hdev]
    · have habs : |(c - last) / last * 100| = |c - last| / last * 100 := by
        rw [abs_mul, abs_div, abs_of_pos hpos]
        norm_num
      rw [TVLFetcher.validate_tvl, if_neg hc, hl]
      by_cases hgt : |(c - last) / last * 100| > 90
      · have hdev : |c - last| / last > 9 / 10 := by
          rw [habs] at hgt
          linarith
        simp [hgt, hdev]
      · have hdev : ¬(|c - last| / last > 9 / 10) := by
          rw [habs] at hgt
          intro hcon
          exact hgt (by linarith)
        simp [hgt, hdev]

theorem validate_tvl_spec_witness :
    TVLFetcher.init.validate_tvl (-1) = false ∧
    TVLFetcher.init.validate_tvl 5 = true ∧
    ({ TVLFetcher.init with last_successful_tvl := some 100 } : TVLFetcher).validate_tvl
        250 = false := by
  refine ⟨(validate_tvl_spec TVLFetcher.init (-1)).1 (by norm_num),
    (validate_tvl_spec TVLFetcher.init 5).2.1 rfl (by norm_num),
    ((validate_tvl_spec _ 250).2.2 100 rfl (by norm_num)).mpr ?_⟩
  rw [show |(250 : ℚ) - 100| = 150 by norm_num]
  norm_num

/-- C4 as amended: the priority list is DexScreener then DeFiLlama, and when
the manual override is unset and DexScreener's fetch yields a STRICTLY
POSITIVE value `V` that passes validation, `get_tvl` returns
`(V, "DexScreener")` without invoking DeFiLlama, increments exactly
DexScreener's success counter, resets the consecutive-failure count to 0 and
stores `V` as the last successful value.  The claim's original
quantification over every value that passes validation is false: line 119
also requires `tvl > 0`, and `V = 0` passes `validate_tvl` on a fresh
fetcher yet is skipped like a failure
(`first_source_zero_counterexample`). -/
theorem first_source_success_shortcircuits (s : TVLFetcher)
    (oracle : String → Option ℚ) (V : ℚ) (hm : s.manual_tvl = none)
    (ho : oracle "DexScreener" = some V) (hpos : 0 < V)
    (hval : s.validate_tvl V = true) :
    sourceNames = ["DexScreener", "DeFiLlama"] ∧
    (s.get_tvl oracle).value = V ∧
    (s.get_tvl oracle).source = "DexScreener" ∧
    (s.get_tvl oracle).invoked = ["DexScreener"] ∧
    (s.get_tvl oracle).state.source_success_count "DexScreener" =
      s.source_success_count "DexScreener" + 1 ∧
    (∀ n, n ≠ "DexScreener" →
      (s.get_tvl oracle).state.source_success_count n = s.source_success_count n) ∧
    (s.get_tvl oracle).state.consecutive_failures = 0 ∧
    (s.get_tvl oracle).state.last_successful_tvl = some V := by
  have hacc : s.accepted (some V) = true := (accepted_some_iff s V).mpr ⟨hpos, hval⟩
  have htry : s.trySources oracle sourceNames = (some (V, "DexScreener"), ["DexScreener"]) := by
    simp [TVLFetcher.trySources, sourceNames, ho, hacc]
  have hget : s.get_tvl oracle =
      ⟨V, "DexScreener",
        { s with
          consecutive_failures := 0,
          source_success_count := fun n =>
            if n = "DexScreener" then s.source_success_count n + 1
            else s.source_success_count n,
          last_successful_tvl := some V },
        ["DexScreener"]⟩ := by
    simp only [TVLFetcher.get_tvl, hm, htry]
  rw [hget]
  refine ⟨rfl, rfl, rfl, rfl, by simp, fun n hn => by simp [hn], rfl, rfl⟩

theorem first_source_success_shortcircuits_witness :
    (TVLFetcher.init.get_tvl
        (fun n => if n = "DexScreener" then some 3 else none)).value = 3 ∧
    (TVLFetcher.init.get_tvl
        (fun n => if n = "DexScreener" then some 3 else none)).invoked =
      ["DexScreener"] := by
  have h := first_source_success_shortcircuits TVLFetcher.init
    (fun n => if n = "DexScreener" then some 3 else none) 3 rfl (by simp)
    (by norm_num) (by decide)
  exact ⟨h.2.1, h.2.2.2.1⟩

/-- C5: in a cycle where the override is unset and both sources fail or are
rejected by validation, `get_tvl` increments the consecutive-failure count by
exactly 1, leaves the last successful value and all per-source success counts
unchanged, and returns the last successful value tagged
`"LastSuccessfulValue"` (the code's name for the spec's LastKnownGood) when
one exists, else `(0, "Default")` (the spec's DefaultZero). -/
theorem all_failed_fallback (s : TVLFetcher) (oracle : String → Option ℚ)
    (hm : s.manual_tvl = none)
    (h1 : s.accepted (oracle "DexScreener") = false)
    (h2 : s.accepted (oracle "DeFiLlama") = false) :
    (s.get_tvl oracle).state.consecutive_failures = s.consecutive_failures + 1 ∧
    (s.get_tvl oracle).state.last_successful_tvl = s.last_successful_tvl ∧
    (s.get_tvl oracle).state.source_success_count = s.source_success_count ∧
    (∀ last, s.last_successful_tvl = some last →
      (s.get_tvl oracle).value = last ∧
      (s.get_tvl oracle).source = "LastSuccessfulValue") ∧
    (s.last_successful_tvl = none →
      (s.get_tvl oracle).value = 0 ∧ (s.get_tvl oracle).source = "Default") := by
  have htry := trySources_all_rejected s oracle h1 h2
  cases hl : s.last_successful_tvl with
  | some last =>
    have hget : s.get_tvl oracle =
        ⟨last, "LastSuccessfulValue",
          { s with consecutive_failures := s.consecutive_failures + 1 },
          ["DexScreener", "DeFiLlama"]⟩ := by
      simp only [TVLFetcher.get_tvl, hm, htry, hl]
    rw [hget]
    refine ⟨rfl, hl, rfl, ?_, ?_⟩
    · intro l hls
      obtain rfl := Option.some.inj hls
      exact ⟨rfl, rfl⟩
    · intro hnone
      simp at hnone
  | none =>
    have hget : s.get_tvl oracle =
        ⟨0, "Default",
          { s with consecutive_failures := s.consecutive_failures + 1 },
          ["DexScreener", "DeFiLlama"]⟩ := by
      simp only [TVLFetcher.get_tvl, hm, htry, hl]
    rw [hget]
    refine ⟨rfl, hl, rfl, ?_, fun _ => ⟨rfl, rfl⟩⟩
    intro l hls
    simp at hls

theorem all_failed_fallback_witness :
    (({ TVLFetcher.init with last_successful_tvl := some 5 } : TVLFetcher).get_tvl
        (fun _ => none)).state.consecutive_failures = 1 ∧
    (({ TVLFetcher.init with last_successful_tvl := some 5 } : TVLFetcher).get_tvl
        (fun _ => none)).value = 5 := by
  have h := all_failed_fallback
    { TVLFetcher.init with last_successful_tvl := some 5 } (fun _ => none) rfl rfl rfl
  exact ⟨h.1, (h.2.2.2.1 5 rfl).1⟩

lemma stateOK_init : StateOK TVLFetcher.init := by
  constructor <;> intro x hx <;> simp [TVLFetcher.init] at hx

lemma stateOK_get_tvl (s : TVLFetcher) (oracle : String → Option ℚ)
    (h : StateOK s) : StateOK (s.get_tvl oracle).state := by
  cases hm : s.manual_tvl with
  | some v =>
    have hget : s.get_tvl oracle = ⟨v, "ManualOverride", s, []⟩ := by
      simp only [TVLFetcher.get_tvl, hm]
    rw [hget]
    exact h
  | none =>
    cases hp : (s.trySources oracle sourceNames).1 with
    | some pr =>
      obtain ⟨tvl, name⟩ := pr
      obtain ⟨hpos, -, -, -⟩ := trySources_eq_some s oracle sourceNames tvl name hp
      have hget : s.get_tvl oracle =
          ⟨tvl, name,
            { s with
              consecutive_failures := 0,
              source_success_count := fun n =>
                if n = name then s.source_success_count n + 1
                else s.source_success_count n,
              last_successful_tvl := some tvl },
            (s.trySources oracle sourceNames).2⟩ := by
        simp only [TVLFetcher.get_tvl, hm, hp]
      rw [hget]
      refine ⟨fun w hw => h.1 w hw, fun last hlast => ?_⟩
      obtain rfl := Option.some.inj hlast
      exact hpos
    | none =>
      cases hl : s.last_successful_tvl with
      | some last =>
        have hget : s.get_tvl oracle =
            ⟨last, "LastSuccessfulValue",
              { s with consecutive_failures := s.consecutive_failures + 1 },
              (s.trySources oracle sourceNames).2⟩ := by
          simp only [TVLFetcher.get_tvl, hm, hp, hl]
        rw [hget]
        exact h
      | none =>
        have hget : s.get_tvl oracle =
            ⟨0, "Default",
              { s with consecutive_failures := s.consecutive_failures + 1 },
              (s.trySources oracle sourceNames).2⟩ := by
          simp only [TVLFetcher.get_tvl, hm, hp, hl]
        rw [hget]
        exact h

lemma stateOK_of_reachable (s : TVLFetcher) (h : Reachable s) : StateOK s := by
  induction h with
  | init => exact stateOK_init
  | step_get s' oracle _ ih => exact stateOK_get_tvl s' oracle ih
  | set_override s' v _ hv ih =>
    refine ⟨fun w hw => ?_, fun last hl => ih.2 last hl⟩
    obtain rfl := Option.some.inj hw
    exact hv
  | clear_override s' _ ih =>
    refine ⟨fun w hw => ?_, fun last hl => ih.2 last hl⟩
    simp at hw

/-- The fallback chain of `get_tvl` at the candidate level: in every
execution in which no fetch raised (source behaviour given as the oracle of
returned candidates), the reading has a non-negative value and a tag among
ManualOverride, a source name, LastSuccessfulValue or Default.  This is the
degraded-tag half of the spec's output contract; it does NOT establish
"never raises", which `get_tvl_raises_on_malformed_json` refutes. -/
theorem get_tvl_fallback_nonneg_tagged (s : TVLFetcher) (oracle : String → Option ℚ)
    (hs : Reachable s) :
    0 ≤ (s.get_tvl oracle).value ∧
    (s.get_tvl oracle).source ∈
      (["ManualOverride", "DexScreener", "DeFiLlama", "LastSuccessfulValue",
        "Default"] : List String) := by
  have hOK := stateOK_of_reachable s hs
  cases hm : s.manual_tvl with
  | some v =>
    have hget : s.get_tvl oracle = ⟨v, "ManualOverride", s, []⟩ := by
      simp only [TVLFetcher.get_tvl, hm]
    rw [hget]
    exact ⟨hOK.1 v hm, by simp⟩
  | none =>
    cases hp : (s.trySources oracle sourceNames).1 with
    | some pr =>
      obtain ⟨tvl, name⟩ := pr
      obtain ⟨hpos, -, hmem, -⟩ := trySources_eq_some s oracle sourceNames tvl name hp
      have hget : s.get_tvl oracle =
          ⟨tvl, name,
            { s with
              consecutive_failures := 0,
              source_success_count := fun n =>
                if n = name then s.source_success_count n + 1
                else s.source_success_count n,
              last_successful_tvl := some tvl },
            (s.trySources oracle sourceNames).2⟩ := by
        simp only [TVLFetcher.get_tvl, hm, hp]
      rw [hget]
      refine ⟨le_of_lt hpos, ?_⟩
      simp only [sourceNames, List.mem_cons, List.mem_singleton] at hmem
      rcases hmem with rfl | rfl | hmem
      · simp
      · simp
      · simp at hmem
    | none =>
      cases hl : s.last_successful_tvl with
      | some last =>
        have hget : s.get_tvl oracle =
            ⟨last, "LastSuccessfulValue",
              { s with consecutive_failures := s.consecutive_failures + 1 },
              (s.trySources oracle sourceNames).2⟩ := by
          simp only [TVLFetcher.get_tvl, hm, hp, hl]
        rw [hget]
        exact ⟨le_of_lt (hOK.2 last hl), by simp⟩
      | none =>
        have hget : s.get_tvl oracle =
            ⟨0, "Default",
              { s with consecutive_failures := s.consecutive_failures + 1 },
              (s.trySources oracle sourceNames).2⟩ := by
          simp only [TVLFetcher.get_tvl, hm, hp, hl]
        rw [hget]
        exact ⟨le_refl 0, by simp⟩

theorem get_tvl_fallback_nonneg_tagged_witness :
    0 ≤ (TVLFetcher.init.get_tvl (fun _ => none)).value ∧
    (TVLFetcher.init.get_tvl (fun _ => none)).source ∈
      (["ManualOverride", "DexScreener", "DeFiLlama", "LastSuccessfulValue",
        "Default"] : List String) :=
  get_tvl_fallback_nonneg_tagged TVLFetcher.init (fun _ => none) Reachable.init

/-- C7: `get_tvl` never clears a set last successful value; it only ever
overwrites it with a value that passed the acceptance test (strictly
positive and validated against the previous state); and in every reachable
state a stored last successful value is strictly positive, so the division
by `last_successful_tvl` inside `validate_tvl` never divides by zero. -/
theorem last_good_invariant (s : TVLFetcher) (oracle : String → Option ℚ) :
    (∀ last, s.last_successful_tvl = some last →
      ∃ l', (s.get_tvl oracle).state.last_successful_tvl = some l') ∧
    (∀ l', (s.get_tvl oracle).state.last_successful_tvl = some l' →
      s.last_successful_tvl = some l' ∨ (0 < l' ∧ s.validate_tvl l' = true)) ∧
    (Reachable s → ∀ last, s.last_successful_tvl = some last → 0 < last) := by
  have hstate : (s.get_tvl oracle).state.last_successful_tvl = s.last_successful_tvl ∨
      ∃ tvl, (s.get_tvl oracle).state.last_successful_tvl = some tvl ∧
        0 < tvl ∧ s.validate_tvl tvl = true := by
    cases hm : s.manual_tvl with
    | some v =>
      left
      have hget : s.get_tvl oracle = ⟨v, "ManualOverride", s, []⟩ := by
        simp only [TVLFetcher.get_tvl, hm]
      rw [hget]
    | none =>
      cases hp : (s.trySources oracle sourceNames).1 with
      | some pr =>
        obtain ⟨tvl, name⟩ := pr
        obtain ⟨hpos, hval, -, -⟩ := trySources_eq_some s oracle sourceNames tvl name hp
        right
        refine ⟨tvl, ?_, hpos, hval⟩
        have hget : s.get_tvl oracle =
            ⟨tvl, name,
              { s with
                consecutive_failures := 0,
                source_success_count := fun n =>
                  if n = name then s.source_success_count n + 1
                  else s.source_success_count n,
                last_successful_tvl := some tvl },
              (s.trySources oracle sourceNames).2⟩ := by
          simp only [TVLFetcher.get_tvl, hm, hp]
        rw [hget]
      | none =>
        left
        cases hl : s.last_successful_tvl with
        | some last =>
          have hget : s.get_tvl oracle =
              ⟨last, "LastSuccessfulValue",
                { s with consecutive_failures := s.consecutive_failures + 1 },
                (s.trySources oracle sourceNames).2⟩ := by
            simp only [TVLFetcher.get_tvl, hm, hp, hl]
          rw [hget]
          exact hl
        | none =>
          have hget : s.get_tvl oracle =
              ⟨0, "Default",
                { s with consecutive_failures := s.consecutive_failures + 1 },
                (s.trySources oracle sourceNames).2⟩ := by
            simp only [TVLFetcher.get_tvl, hm, hp, hl]
          rw [hget]
          exact hl
  refine ⟨?_, ?_, fun hr last hl => (stateOK_of_reachable s hr).2 last hl⟩
  · intro last hl
    rcases hstate with he | ⟨tvl, he, -, -⟩
    · exact ⟨last, he.trans hl⟩
    · exact ⟨tvl, he⟩
  · intro l' hl'
    rcases hstate with he | ⟨tvl, he, hpos, hval⟩
    · left
      rw [he] at hl'
      exact hl'
    · right
      rw [he] at hl'
      obtain rfl := Option.some.inj hl'
      exact ⟨hpos, hval⟩

theorem last_good_invariant_witness :
    (∃ l', ((TVLFetcher.init.get_tvl (fun _ => some 5)).state.get_tvl
        (fun _ => none)).state.last_successful_tvl = some l') ∧ 0 < (5 : ℚ) := by
  have h := last_good_invariant (TVLFetcher.init.get_tvl (fun _ => some 5)).state
    (fun _ => none)
  exact ⟨h.1 5 (by decide), h.2.2 (Reachable.step_get _ _ Reachable.init) 5 (by decide)⟩

/-- C9: `fetch_contract_tvl` returns exactly the numeric component of
`get_tvl` and drops the source tag, so two calls whose readings agree on the
value are indistinguishable to its callers even when their source tags
(fresh, LastSuccessfulValue, Default) differ. -/
theorem fetch_contract_tvl_discards_source :
    (∀ (inst : Option TVLFetcher) (oracle : String → Option ℚ),
      fetch_contract_tvl inst oracle =
        (((inst.getD TVLFetcher.init).get_tvl oracle).value,
          ((inst.getD TVLFetcher.init).get_tvl oracle).state)) ∧
    (∀ (s s' : TVLFetcher) (o o' : String → Option ℚ),
      (s.get_tvl o).value = (s'.get_tvl o').value →
      (fetch_contract_tvl (some s) o).1 = (fetch_contract_tvl (some s') o').1) := by
  constructor
  · intro inst oracle
    rfl
  · intro s s' o o' h
    simpa [fetch_contract_tvl] using h

theorem fetch_contract_tvl_discards_source_witness :
    (fetch_contract_tvl (some { TVLFetcher.init with last_successful_tvl := some 5 })
        (fun _ => none)).1 =
      (fetch_contract_tvl (some TVLFetcher.init) (fun _ => some 5)).1 :=
  fetch_contract_tvl_discards_source.2 _ _ _ _ (by decide)

lemma trySourcesE_eq (s : TVLFetcher) (oracle : String → Option ℚ) :
    ∀ names : List String,
      s.trySourcesE (names.map fun n => (Except.ok (oracle n), n)) =
        Except.ok (s.trySources oracle names) := by
  intro names
  induction names with
  | nil => rfl
  | cons hd tl ih =>
    cases ho : oracle hd with
    | some t =>
      by_cases hacc : s.accepted (some t) = true
      · simp [TVLFetcher.trySourcesE, TVLFetcher.trySources, ho, hacc]
      · simp [TVLFetcher.trySourcesE, TVLFetcher.trySources, ho, hacc, ih]
    | none => simp [TVLFetcher.trySourcesE, TVLFetcher.trySources, ho, ih]

lemma get_tvl_run_agrees_when_no_raise (s : TVLFetcher)
    (dex_api llama_api : ℕ → Option Json) (oracle : String → Option ℚ)
    (hd : s.fetch_from_dexscreener dex_api = Except.ok (oracle "DexScreener"))
    (hl : s.fetch_from_defillama llama_api = Except.ok (oracle "DeFiLlama")) :
    s.get_tvl_run dex_api llama_api = Except.ok (s.get_tvl oracle) := by
  have hlist : [(s.fetch_from_dexscreener dex_api, "DexScreener"),
      (s.fetch_from_defillama llama_api, "DeFiLlama")] =
      sourceNames.map (fun n => (Except.ok (oracle n), n)) := by
    simp [sourceNames, hd, hl]
  cases hm : s.manual_tvl with
  | some v => simp only [TVLFetcher.get_tvl_run, TVLFetcher.get_tvl, hm]
  | none =>
    simp only [TVLFetcher.get_tvl_run, TVLFetcher.get_tvl, hm, hlist,
      trySourcesE_eq]
    cases hp : (s.trySources oracle sourceNames).1 with
    | some pr =>
      obtain ⟨tvl, name⟩ := pr
      simp [hp]
    | none => cases hl2 : s.last_successful_tvl <;> simp [hp, hl2]

/-- C1: the claim that `get_tvl` never raises an exception to its caller is
false of the code.  Only `_api_call` sits inside the retry's try block; the
field extraction does not, and `get_tvl` has no handler around
`tvl = fetch_func()` (line 118).  A fresh fetcher receiving an HTTP 200
response with body `{"pair": "x"}` from DexScreener raises `AttributeError`
at `.get("liquidity", {})` on a string (src/main.py line 90); in a cycle
where DexScreener fails over HTTP, a 200 response with body `[1]` from
DeFiLlama raises `AttributeError` at `data.get("tvl", None)` on a list
(line 71).  Both exceptions escape `get_tvl` (and `fetch_contract_tvl`) to
the caller instead of producing a degraded reading. -/
theorem get_tvl_raises_on_malformed_json :
    TVLFetcher.init.get_tvl_run
        (fun _ => some (Json.obj [("pair", Json.str "x")])) (fun _ => none) =
      Except.error () ∧
    TVLFetcher.init.get_tvl_run (fun _ => none)
        (fun _ => some (Json.arr [Json.num 1])) = Except.error () :=
  ⟨rfl, rfl⟩

/-- C4 counterexample: `V = 0` passes `validate_tvl` on a fresh fetcher and
is a value DexScreener's fetch can return (line 91 accepts `tvl >= 0`), yet
line 119's additional `tvl > 0` test skips it like a failure: DeFiLlama IS
invoked, the returned source is not DexScreener, DexScreener's success
counter does not increment and the last successful value is not set.  This
refutes the claim's quantification over every value that passes
validation. -/
theorem first_source_zero_counterexample :
    TVLFetcher.init.validate_tvl 0 = true ∧
    (TVLFetcher.init.get_tvl
        (fun n => if n = "DexScreener" then some 0 else none)).invoked =
      ["DexScreener", "DeFiLlama"] ∧
    (TVLFetcher.init.get_tvl
        (fun n => if n = "DexScreener" then some 0 else none)).source ≠
      "DexScreener" ∧
    (TVLFetcher.init.get_tvl
        (fun n =>
          if n = "DexScreener" then some 0 else none)).state.source_success_count
      "DexScreener" = TVLFetcher.init.source_success_count "DexScreener" ∧
    (TVLFetcher.init.get_tvl
        (fun n =>
          if n = "DexScreener" then some 0 else none)).state.last_successful_tvl =
      none := by
  refine ⟨rfl, rfl, ?_, rfl, rfl⟩
  decide
